import Mathlib

/-!
Verification development for the entry-ledger / roster / sticky-control core
of a chat-community registration bot (source: `bot.py`).

The embedding models:
  * the entry ledger (`ENTRIES` in the source) as a `List Entry`, where a
    record's possibly-missing `status` / `slot_key` fields are `Option String`
    read through the same defaults the source uses (`e.get("status","active")`,
    `e.get("slot_key","other")`);
  * the registration flow (`BasicInfoModal.on_submit` → `TimeSelect.callback`
    → `post_panel_and_confirm`) as pure functions over the ledger;
  * the status-change handler (`EntryStatusControlView._handle_status_change`)
    and the admin delete command (`entry_delete`) as ledger transformers;
  * the roster aggregator (`_group_entries_by_slot`, `_build_schedule_embed`,
    `ensure_schedule_message`, `update_schedule_panel`) over an explicit
    platform state (the schedule channel's message list plus the persisted
    roster binding);
  * the sticky reconciler (`ensure_sticky_bottom`, `delete_message_if_exists`,
    `post_sticky_message`) over an explicit channel state, with the platform
    calls it performs reified into a trace.

Timestamps (`time.time()` values) are modelled as rationals; external message
identifiers as naturals.  Python's truthiness test on optional integer ids
(`if msg_id:`, which also treats `0` as absent) is embedded by the helper
`truthyId`.
-/

/-- One ledger record, as built by `add_entry_record` in the source.  Records
loaded from storage may lack `status` / `slot_key`, hence the `Option`s. -/
structure Entry where
  guild_id : Nat
  channel_id : Nat
  message_id : Nat
  user_id : Nat
  name : String
  referrer : String
  slot_key : Option String
  custom_time : Option String
  status : Option String
  ts : ℚ
deriving DecidableEq, Repr

/-- The source reads an entry's status as `e.get("status", "active")`. -/
def statusD (e : Entry) : String := e.status.getD "active"

/-- The source reads an entry's slot as `e.get("slot_key", "other")`. -/
def slotKeyD (e : Entry) : String := e.slot_key.getD "other"

/-- `BLOCK_STATUSES = {"active", "interviewed"}` from the source. -/
def BLOCK_STATUSES : List String := ["active", "interviewed"]

/-- `user_has_blocking_entries(user_id)`: some entry of this user has a
blocking status (`any(e.get("user_id") == uid and e.get("status", "active")
in BLOCK_STATUSES for e in ENTRIES)`). -/
def user_has_blocking_entries (entries : List Entry) (uid : Nat) : Bool :=
  entries.any (fun e => e.user_id == uid && BLOCK_STATUSES.contains (statusD e))

/-- `add_entry_record`: appends one fresh record with `status = "active"`. -/
def add_entry_record (entries : List Entry)
    (guild_id channel_id message_id user_id : Nat)
    (name referrer : String) (slot_key : String)
    (custom_time : Option String) (ts : ℚ) : List Entry :=
  entries ++ [{ guild_id := guild_id, channel_id := channel_id,
                message_id := message_id, user_id := user_id,
                name := name, referrer := referrer,
                slot_key := some slot_key, custom_time := custom_time,
                status := some "active", ts := ts }]

/-- The record-creation loop of `post_panel_and_confirm`: one
`add_entry_record` per chosen slot value, all sharing the panel message id;
`custom_time` is stored only on the `"other"` record. -/
def post_panel_and_confirm (entries : List Entry)
    (gid cid mid uid : Nat) (name referrer : String)
    (chosen_values : List String) (custom_time : Option String)
    (ts : ℚ) : List Entry :=
  chosen_values.foldl
    (fun acc val =>
      add_entry_record acc gid cid mid uid name referrer val
        (if val == "other" then custom_time else none) ts)
    entries

/-- The error taxonomy of the registration flow. -/
inductive RegError
  | duplicateRegistration
  | invalidSelection
deriving DecidableEq, Repr

/-- The composite registration flow: `BasicInfoModal.on_submit` rejects a
user with blocking entries; `TimeSelect.callback` re-checks blocking and
rejects `"other"` combined with another slot; otherwise (directly, or via
`CustomTimeModal` for `"other"` alone) `post_panel_and_confirm` creates one
record per chosen slot.  Returns the resulting ledger and the error, if any;
on error the ledger is returned unchanged, as in the source, where the
handlers return before touching `ENTRIES`. -/
def registerFlow (entries : List Entry) (uid : Nat) (values : List String)
    (gid cid mid : Nat) (name referrer : String)
    (custom_time : Option String) (ts : ℚ) : List Entry × Option RegError :=
  if user_has_blocking_entries entries uid then
    (entries, some .duplicateRegistration)
  else if values.contains "other" && decide (1 < values.length) then
    (entries, some .invalidSelection)
  else
    (post_panel_and_confirm entries gid cid mid uid name referrer values
      custom_time ts, none)

/-- Outcome of `TimeSelect.callback` (lines 160–173 of the source). -/
inductive SelectOutcome
  | blocked
  | invalidSelection
  | openFreeTextModal
  | panelPosted
deriving DecidableEq, Repr

/-- `min_values=1` of the `TimeSelect` component. -/
def timeSelectMinValues : Nat := 1

/-- `max_values=2` of the `TimeSelect` component: at most two slots per
submission, enforced by the platform component configuration. -/
def timeSelectMaxValues : Nat := 2

/-- `TimeSelect.callback`: blocked users are rejected first; then `"other"`
together with another value is rejected; `"other"` alone opens the free-text
modal; otherwise the panel is posted. -/
def timeSelectCallback (entries : List Entry) (uid : Nat)
    (values : List String) : SelectOutcome :=
  if user_has_blocking_entries entries uid then .blocked
  else if values.contains "other" && decide (1 < values.length) then
    .invalidSelection
  else if values.contains "other" then .openFreeTextModal
  else .panelPosted

/-- Status assignment `e["status"] = s` on one record. -/
def setStatus (e : Entry) (s : String) : Entry := { e with status := some s }

/-- The fallback branch of `_handle_status_change` (`entry["status"] =
status_key`): mutates only the found record, i.e. the first record whose
`message_id` matches. -/
def set_first_status : List Entry → Nat → String → List Entry
  | [], _, _ => []
  | e :: es, mid, s =>
      if e.message_id == mid then setStatus e s :: es
      else e :: set_first_status es mid s

/-- `EntryStatusControlView._handle_status_change` (authorization already
granted): finds the first ledger record bound to the pressed panel's message
id; if there is none, or it is not `active`, reports "target not found" and
leaves the ledger untouched (`none`).  Otherwise `"interviewed"` cascades to
every `active` record of the same user, `"no_response"` hits every `active`
record bound to the same message id, and any other key is written onto the
found record alone. -/
def _handle_status_change (entries : List Entry) (mid : Nat)
    (status_key : String) : Option (List Entry) :=
  match entries.find? (fun e => e.message_id == mid) with
  | none => none
  | some entry =>
      if statusD entry != "active" then none
      else if status_key == "interviewed" then
        some (entries.map (fun e =>
          if e.user_id == entry.user_id && statusD e == "active" then
            setStatus e "interviewed"
          else e))
      else if status_key == "no_response" then
        some (entries.map (fun e =>
          if e.message_id == mid && statusD e == "active" then
            setStatus e "no_response"
          else e))
      else
        some (set_first_status entries mid status_key)

/-- The "target not found" condition of `_handle_status_change`: the first
record matching the message id is absent or not `active`. -/
def first_match_not_active (entries : List Entry) (mid : Nat) : Bool :=
  match entries.find? (fun e => e.message_id == mid) with
  | none => true
  | some e => statusD e != "active"

/-- Number of positions at which two ledgers differ (the records a
transition actually changed). -/
def changedCount (old new : List Entry) : Nat :=
  (old.zip new).countP (fun q => decide (q.1 ≠ q.2))

/-- A sample active entry used in concrete instantiations. -/
def sampleActive : Entry :=
  { guild_id := 1, channel_id := 2, message_id := 3, user_id := 7,
    name := "Taro", referrer := "Hanako", slot_key := some "9-12",
    custom_time := none, status := some "active", ts := 10 }

/-- A sample entry with terminal status `"deleted"`. -/
def sampleDeleted : Entry :=
  { sampleActive with status := some "deleted", ts := 11 }

/-- A sample entry with terminal status `"no_response"`. -/
def sampleNoResponse : Entry :=
  { sampleActive with status := some "no_response", ts := 12 }

/-- A sample record whose `status` field is absent. -/
def sampleNoStatus : Entry := { sampleActive with status := none }

/-- Group G1, slot "0-3", of user 7 (panel message 1). -/
def entryG1A : Entry :=
  { sampleActive with message_id := 1, slot_key := some "0-3", ts := 1 }

/-- Group G1, slot "3-6", of user 7 (panel message 1). -/
def entryG1B : Entry :=
  { sampleActive with message_id := 1, slot_key := some "3-6", ts := 2 }

/-- Group G2, slot "6-9", of user 7 (panel message 2). -/
def entryG2C : Entry :=
  { sampleActive with message_id := 2, slot_key := some "6-9", ts := 3 }

/-- A ledger in which user 7 owns two active groups, G1 = {A,B} bound to
message 1 and G2 = {C} bound to message 2. -/
def twoGroupLedger : List Entry := [entryG1A, entryG1B, entryG2C]

/-- A ledger for panel message 5 whose first record is already `deleted`
(e.g. after a slot-scoped admin delete) while the second is still
`active`. -/
def mixedGroupLedger : List Entry :=
  [{ sampleActive with message_id := 5, status := some "deleted" },
   { sampleActive with message_id := 5 }]

/-- `SLOT_ORDER` from the source: the fixed display enumeration — seven
clock ranges, then "anytime", then "other" — as (label, key) pairs. -/
def SLOT_ORDER : List (String × String) :=
  [("0-3時", "0-3"), ("3-6時", "3-6"), ("6-9時", "6-9"), ("9-12時", "9-12"),
   ("12-15時", "12-15"), ("15-20時", "15-20"), ("20-0時", "20-0"),
   ("いつでも", "anytime"), ("その他", "other")]

/-- One iteration of the bucket-filling loop of `_group_entries_by_slot`:
skip non-`active` records, append the rest to the bucket of their
(defaulted) slot key.  The dict of buckets is represented as a function
from keys to lists; the all-empty initial value makes `setdefault` and the
pre-seeded `SLOT_ORDER` keys coincide. -/
def _group_step (b : String → List Entry) (e : Entry) :
    String → List Entry :=
  if statusD e != "active" then b
  else fun k => if k = slotKeyD e then b k ++ [e] else b k

instance : DecidableRel (fun a b : Entry => a.ts ≤ b.ts) :=
  fun a b => inferInstanceAs (Decidable (a.ts ≤ b.ts))

instance : IsTotal Entry (fun a b => a.ts ≤ b.ts) :=
  ⟨fun a b => le_total a.ts b.ts⟩

instance : IsTrans Entry (fun a b => a.ts ≤ b.ts) :=
  ⟨fun _ _ _ h1 h2 => le_trans h1 h2⟩

/-- `_group_entries_by_slot` from the source: fill buckets in ledger order,
then sort each bucket by `ts` ascending (Python's stable sort; a stable
insertion sort produces the same list). -/
def _group_entries_by_slot (entries : List Entry) (k : String) :
    List Entry :=
  List.insertionSort (fun a b => a.ts ≤ b.ts)
    ((entries.foldl _group_step (fun _ => [])) k)

/-- `_message_link` from the source. -/
def _message_link (guild_id channel_id message_id : Nat) : String :=
  "https://discord.com/channels/" ++ toString guild_id ++ "/" ++
    toString channel_id ++ "/" ++ toString message_id

/-- One roster line of `_build_schedule_embed`.  A zero `user_id` is falsy
in the source (`if uid`), so it renders no mention; `custom_time` is
appended only for the `"other"` bucket and only when truthy (present and
non-empty). -/
def _format_line (key : String) (e : Entry) : String :=
  let mention := if e.user_id == 0 then "" else "<@" ++ toString e.user_id ++ ">"
  let link := _message_link e.guild_id e.channel_id e.message_id
  if key == "other" && (e.custom_time.getD "" != "") then
    "- " ++ e.name ++ " " ++ mention ++ "（" ++ e.custom_time.getD "" ++
      "） — [メッセージ](" ++ link ++ ")"
  else
    "- " ++ e.name ++ " " ++ mention ++ " — [メッセージ](" ++ link ++ ")"

/-- The rendered value of one embed field of `_build_schedule_embed`: a
placeholder for an empty bucket, otherwise the newline-joined lines,
truncated at 1024 with a continuation marker. -/
def _bucket_value (key : String) (items : List Entry) : String :=
  if items.isEmpty then "— なし —"
  else
    let value := String.intercalate "\n" (items.map (_format_line key))
    if 1024 < value.length then value.take 1000 ++ "\n…（続きあり）"
    else value

/-- The embed fields of `_build_schedule_embed` beyond the title: one field
per `SLOT_ORDER` pair, in that fixed order. -/
def _build_schedule_fields (entries : List Entry) :
    List (String × String) :=
  SLOT_ORDER.map (fun lk =>
    (lk.1, _bucket_value lk.2 (_group_entries_by_slot entries lk.2)))

/-- `total_active` of `_build_schedule_embed`: how many ledger records are
`active` (missing status defaulting to `active`). -/
def total_active (entries : List Entry) : Nat :=
  entries.countP (fun e => statusD e == "active")

/-- `_build_schedule_embed` as data: the title (with the live active count)
plus the ordered embed fields. -/
def _build_schedule_embed (entries : List Entry) :
    String × List (String × String) :=
  ("入社日程 予定表（現在 " ++ toString (total_active entries) ++ " 件）",
   _build_schedule_fields entries)

/-- The record filter of the `entry_delete` command: `active` records of the
given panel message, optionally restricted to one slot.  Note the slot
comparison reads the raw field (`e.get("slot_key")`, no default). -/
def entry_delete_pred (mid : Nat) (slot_filter : Option String)
    (e : Entry) : Bool :=
  e.message_id == mid && statusD e == "active" &&
    (match slot_filter with
     | none => true
     | some s => e.slot_key == some s)

/-- The `entry_delete` command's ledger mutation: matching records are soft
deleted; also returns the reported count. -/
def entry_delete (entries : List Entry) (mid : Nat)
    (slot_filter : Option String) : List Entry × Nat :=
  (entries.map (fun e =>
      if entry_delete_pred mid slot_filter e then setStatus e "deleted"
      else e),
   entries.countP (entry_delete_pred mid slot_filter))

/-- `twoGroupLedger` after the interviewed cascade triggered from G1. -/
def twoGroupInterviewed : List Entry :=
  [setStatus entryG1A "interviewed", setStatus entryG1B "interviewed",
   setStatus entryG2C "interviewed"]

/-- `twoGroupLedger` after marking G1 (message 1) as no-response. -/
def twoGroupNoResp : List Entry :=
  [setStatus entryG1A "no_response", setStatus entryG1B "no_response",
   entryG2C]

/-- An embed as data: title plus (name, value) fields. -/
abbrev Embed := String × List (String × String)

/-- Python's truthiness test on an optional integer id (`if msg_id:`): `0`
counts as absent. -/
def truthyId (o : Option Nat) : Option Nat :=
  match o with
  | some 0 => none
  | x => x

/-- The platform state seen by the roster aggregator: whether
`SCHEDULE_CHANNEL_ID` is configured and resolves to a text channel, the
schedule channel's messages (id, embed), the id the platform will give the
next sent message, the in-memory `SCHEDULE_STATE["message_id"]`, and its
durable copy written by `save_schedule_state`. -/
structure RosterWorld where
  channel_ok : Bool
  messages : List (Nat × Embed)
  next_id : Nat
  schedule_state : Option Nat
  schedule_store : Option Nat
deriving DecidableEq, Repr

/-- `msg.edit(embed=...)` on the message with the given id. -/
def edit_embed (mid : Nat) (emb : Embed) (m : Nat × Embed) : Nat × Embed :=
  if m.1 == mid then (m.1, emb) else m

/-- `ensure_schedule_message`: without a configured channel it returns
nothing; with a truthy stored id whose fetch succeeds it returns that
message; otherwise (no binding, or fetch reports not-found) it sends a new
message carrying the freshly built embed, records its id in
`SCHEDULE_STATE` and persists it, and returns it. -/
def ensure_schedule_message (entries : List Entry) (w : RosterWorld) :
    Option Nat × RosterWorld :=
  if !w.channel_ok then (none, w)
  else
    let create :=
      (some w.next_id,
       { w with
         messages :=
           w.messages ++ [(w.next_id, _build_schedule_embed entries)],
         next_id := w.next_id + 1,
         schedule_state := some w.next_id,
         schedule_store := some w.next_id })
    match truthyId w.schedule_state with
    | some mid =>
        if w.messages.any (fun m => m.1 == mid) then (some mid, w)
        else create
    | none => create

/-- `update_schedule_panel` (the roster `sync()`): ensure the roster
message exists, then edit it in place with the freshly built embed. -/
def update_schedule_panel (entries : List Entry) (w : RosterWorld) :
    RosterWorld :=
  match ensure_schedule_message entries w with
  | (none, w2) => w2
  | (some mid, w2) =>
      { w2 with
        messages :=
          w2.messages.map (edit_embed mid (_build_schedule_embed entries)) }

/-- The bound roster message is still fetchable: the stored id is truthy
and a message with that id exists in the channel. -/
def roster_binding_resolvable (w : RosterWorld) : Bool :=
  match truthyId w.schedule_state with
  | none => false
  | some mid => w.messages.any (fun m => m.1 == mid)

/-- A fresh roster world: channel configured, no messages yet, next message
id 1, no binding. -/
def rosterW0 : RosterWorld :=
  { channel_ok := true, messages := [], next_id := 1,
    schedule_state := none, schedule_store := none }

/-- One platform call performed by the sticky reconciler. -/
inductive StickyCall
  | history
  | fetch (mid : Nat)
  | delete (mid : Nat)
  | send (mid : Nat)
deriving DecidableEq, Repr

/-- Recognizer for send calls in a reconciliation trace. -/
def is_send : StickyCall → Bool
  | .send _ => true
  | _ => false

/-- The per-channel state seen by the sticky reconciler: the channel's
messages (ids, most recent last), the id the platform will give the next
sent message, the in-memory `STICKY_STATE` binding for this channel, its
durable copy written by `save_sticky`, and this channel's
`_sticky_cooldown` stamp (`0.0` when never set). -/
structure StickyWorld where
  messages : List Nat
  next_id : Nat
  sticky : Option Nat
  sticky_store : Option Nat
  cooldown_last : ℚ
deriving DecidableEq, Repr

/-- `STICKY_COOLDOWN_SEC = 3.0` from the source. -/
def STICKY_COOLDOWN_SEC : ℚ := 3

/-- `delete_message_if_exists`: fetch the message; a not-found fetch is
tolerated (only the fetch call happens), otherwise the message is
deleted.  Returns the channel's messages and the trace of platform
calls. -/
def delete_message_if_exists (msgs : List Nat) (mid : Nat) :
    List Nat × List StickyCall :=
  if msgs.contains mid then (msgs.erase mid, [.fetch mid, .delete mid])
  else (msgs, [.fetch mid])

/-- The under-lock body of `ensure_sticky_bottom` (platform sends modelled
as succeeding): fetch the most recent message; if it is the (truthy) bound
sticky message, do nothing further; otherwise delete the old bound message
best-effort (when a truthy binding exists), send a fresh control message,
and record and persist its id as the new binding. -/
def sticky_reconcile (w : StickyWorld) : StickyWorld × List StickyCall :=
  if (match w.messages.getLast?, truthyId w.sticky with
      | some l, some s => l == s
      | _, _ => false) then (w, [StickyCall.history])
  else
    ({ w with
       messages := (match truthyId w.sticky with
          | some s => delete_message_if_exists w.messages s
          | none => (w.messages, [])).1 ++ [w.next_id],
       next_id := w.next_id + 1,
       sticky := some w.next_id,
       sticky_store := some w.next_id },
     [StickyCall.history] ++ (match truthyId w.sticky with
        | some s => delete_message_if_exists w.messages s
        | none => (w.messages, [])).2 ++ [StickyCall.send w.next_id])

/-- `ensure_sticky_bottom`: a trigger inside the per-channel cooldown
window returns before any platform call and without touching any state;
otherwise the cooldown stamp is set to the trigger time and the locked
reconciliation body runs. -/
def ensure_sticky_bottom (w : StickyWorld) (now : ℚ) :
    StickyWorld × List StickyCall :=
  if now - w.cooldown_last < STICKY_COOLDOWN_SEC then (w, [])
  else sticky_reconcile { w with cooldown_last := now }

/-- A sticky world whose bound message 5 is no longer last (message 6 was
posted after it), with cooldown long expired. -/
def stickyW0 : StickyWorld :=
  { messages := [5, 6], next_id := 7, sticky := some 5,
    sticky_store := some 5, cooldown_last := 0 }

theorem post_panel_length (entries : List Entry) (gid cid mid uid : Nat)
    (name referrer : String) (values : List String) (ct : Option String)
    (ts : ℚ) :
    (post_panel_and_confirm entries gid cid mid uid name referrer values ct
      ts).length = entries.length + values.length := by
  induction values generalizing entries with
  | nil => simp [post_panel_and_confirm]
  | cons v vs ih =>
      simp only [post_panel_and_confirm, List.foldl_cons] at *
      rw [ih]
      simp [add_entry_record]
      omega

/-- C1: an owner with a blocking (`active` or `interviewed`) entry cannot
register again — the flow fails with `DuplicateRegistration` and the ledger
is unchanged; an owner all of whose entries are `deleted` or `no_response`
(or who has none) proceeds, with one fresh record per chosen slot. -/
theorem duplicate_registration_blocking (entries : List Entry) (uid : Nat)
    (values : List String) (gid cid mid : Nat) (name referrer : String)
    (ct : Option String) (ts : ℚ) :
    ((∃ e ∈ entries, e.user_id = uid ∧ statusD e ∈ BLOCK_STATUSES) →
      registerFlow entries uid values gid cid mid name referrer ct ts =
        (entries, some RegError.duplicateRegistration))
    ∧ ((∀ e ∈ entries, e.user_id = uid →
          statusD e = "deleted" ∨ statusD e = "no_response") →
        ¬("other" ∈ values ∧ 1 < values.length) →
        (registerFlow entries uid values gid cid mid name referrer ct
            ts).2 = none ∧
        (registerFlow entries uid values gid cid mid name referrer ct
            ts).1.length = entries.length + values.length) := by
  constructor
  · rintro ⟨e, he, hu, hs⟩
    have hb : user_has_blocking_entries entries uid = true := by
      simp only [user_has_blocking_entries, List.any_eq_true]
      exact ⟨e, he, by simp [hu, BLOCK_STATUSES] at hs ⊢; tauto⟩
    simp [registerFlow, hb]
  · intro hterm hval
    have hb : user_has_blocking_entries entries uid = false := by
      simp only [user_has_blocking_entries, List.any_eq_false]
      intro e he
      simp only [Bool.and_eq_true, beq_iff_eq, not_and]
      intro hu
      rcases hterm e he hu with h | h <;>
        simp [BLOCK_STATUSES, List.contains, h]
    have hv : (values.contains "other" && decide (1 < values.length)) =
        false := by
      by_cases hm : "other" ∈ values
      · have h1 : ¬ (1 < values.length) := fun hl => hval ⟨hm, hl⟩
        simp [h1]
      · simp [hm]
    constructor
    · simp only [registerFlow, hb, Bool.false_eq_true, if_false, hv]
    · simp only [registerFlow, hb, Bool.false_eq_true, if_false, hv]
      exact post_panel_length ..

/-- C1 witness: with one active entry of user 7 in the ledger, registration
by user 7 fails with `DuplicateRegistration` leaving the ledger unchanged;
on the empty ledger it proceeds and creates one record. -/
theorem duplicate_registration_blocking_witness :
    registerFlow [sampleActive] 7 ["9-12"] 1 2 4 "Taro" "Hanako" none 20 =
      ([sampleActive], some RegError.duplicateRegistration)
    ∧ (registerFlow [] 7 ["9-12"] 1 2 4 "Taro" "Hanako" none 20).2 = none :=
  ⟨(duplicate_registration_blocking [sampleActive] 7 ["9-12"] 1 2 4 "Taro"
      "Hanako" none 20).1
      ⟨sampleActive, by simp, by simp [sampleActive, statusD, BLOCK_STATUSES]⟩,
    ((duplicate_registration_blocking [] 7 ["9-12"] 1 2 4 "Taro" "Hanako"
        none 20).2 (by simp) (by simp)).1⟩

/-- C9: a submission may claim at most two slots (the select component's
`max_values` is 2); for an unblocked user, a selection containing `"other"`
together with another slot fails with `InvalidSelection` and creates no
entry, while selecting `"other"` alone proceeds to free-text capture. -/
theorem other_slot_exclusive (entries : List Entry) (uid : Nat)
    (values : List String) (gid cid mid : Nat) (name referrer : String)
    (ct : Option String) (ts : ℚ)
    (hnb : user_has_blocking_entries entries uid = false) :
    timeSelectMaxValues = 2
    ∧ ("other" ∈ values → 1 < values.length →
        timeSelectCallback entries uid values = SelectOutcome.invalidSelection
        ∧ registerFlow entries uid values gid cid mid name referrer ct ts =
            (entries, some RegError.invalidSelection))
    ∧ (values = ["other"] →
        timeSelectCallback entries uid values =
          SelectOutcome.openFreeTextModal) := by
  refine ⟨rfl, ?_, ?_⟩
  · intro hm hl
    exact ⟨by simp [timeSelectCallback, hnb, hm, hl],
           by simp [registerFlow, hnb, hm, hl]⟩
  · intro hv
    subst hv
    simp [timeSelectCallback, hnb]

/-- C9 witness: on the empty ledger, user 7 selecting `"other"` plus a slot
is rejected with `InvalidSelection`; selecting `"other"` alone opens the
free-text modal. -/
theorem other_slot_exclusive_witness :
    timeSelectCallback [] 7 ["other", "0-3"] =
      SelectOutcome.invalidSelection
    ∧ timeSelectCallback [] 7 ["other"] =
      SelectOutcome.openFreeTextModal :=
  ⟨((other_slot_exclusive [] 7 ["other", "0-3"] 1 2 3 "n" "r" none 0
      (by decide)).2.1 (by decide) (by decide)).1,
   (other_slot_exclusive [] 7 ["other"] 1 2 3 "n" "r" none 0
      (by decide)).2.2 rfl⟩

theorem handle_status_none_iff (entries : List Entry) (mid : Nat)
    (k : String) :
    _handle_status_change entries mid k = none ↔
      first_match_not_active entries mid = true := by
  unfold _handle_status_change first_match_not_active
  cases hf : entries.find? (fun e => e.message_id == mid) with
  | none => simp
  | some entry =>
      by_cases ha : (statusD entry != "active") = true
      · simp [ha]
      · have ha2 : statusD entry = "active" := by simpa using ha
        simp only [ha2, bne_self_eq_false, Bool.false_eq_true, if_false,
          iff_false]
        split
        · exact fun h => Option.noConfusion h
        · split
          · exact fun h => Option.noConfusion h
          · exact fun h => Option.noConfusion h

theorem handle_interviewed_eq (entries : List Entry) (mid : Nat)
    (entry : Entry)
    (hfind : entries.find? (fun e => e.message_id == mid) = some entry)
    (hact : statusD entry = "active") :
    _handle_status_change entries mid "interviewed" =
      some (entries.map (fun e =>
        if e.user_id == entry.user_id && statusD e == "active" then
          setStatus e "interviewed"
        else e)) := by
  unfold _handle_status_change
  rw [hfind]
  simp [hact]

theorem handle_no_response_eq (entries : List Entry) (mid : Nat)
    (entry : Entry)
    (hfind : entries.find? (fun e => e.message_id == mid) = some entry)
    (hact : statusD entry = "active") :
    _handle_status_change entries mid "no_response" =
      some (entries.map (fun e =>
        if e.message_id == mid && statusD e == "active" then
          setStatus e "no_response"
        else e)) := by
  unfold _handle_status_change
  rw [hfind]
  simp [hact]

/-- C2: when the interviewed button succeeds on the group bound to `mid`,
every `active` entry of the same owner — in any group, targeted or not — is
transitioned to `interviewed` at its position in the ledger. -/
theorem mark_interviewed_cascades_all_groups (entries : List Entry)
    (mid : Nat) (entry : Entry) (out : List Entry)
    (hfind : entries.find? (fun e => e.message_id == mid) = some entry)
    (hout : _handle_status_change entries mid "interviewed" = some out) :
    out.length = entries.length ∧
    ∀ (i : Nat) (e : Entry), entries[i]? = some e → e.user_id = entry.user_id →
      statusD e = "active" →
      out[i]? = some (setStatus e "interviewed") := by
  have hact : statusD entry = "active" := by
    by_contra h
    have hnone : _handle_status_change entries mid "interviewed" = none := by
      unfold _handle_status_change
      rw [hfind]
      simp [h]
    rw [hnone] at hout
    exact Option.noConfusion hout
  rw [handle_interviewed_eq entries mid entry hfind hact] at hout
  injection hout with hout
  subst hout
  refine ⟨by simp, ?_⟩
  intro i e hi hu hs
  rw [List.getElem?_map, hi]
  simp [hu, hs]

/-- C2 witness: user 7 has two active groups, G1 (entries A, B on message 1)
and G2 (entry C on message 2); marking G1 interviewed leaves G2's entry C
interviewed as well. -/
theorem mark_interviewed_cascades_all_groups_witness :
    twoGroupInterviewed[2]? = some (setStatus entryG2C "interviewed") :=
  (mark_interviewed_cascades_all_groups twoGroupLedger 1 entryG1A
      twoGroupInterviewed (by decide) (by decide)).2 2 entryG2C
    (by decide) (by decide) (by decide)

/-- C5: when the no-response button succeeds on the group bound to `mid`,
exactly the `active` entries bound to that message id move to
`no_response`; every entry bound to a different message id — in particular
every other group of the same owner — is returned completely unchanged, as
is any non-active entry. -/
theorem mark_no_response_only_target_group (entries : List Entry)
    (mid : Nat) (out : List Entry)
    (hout : _handle_status_change entries mid "no_response" = some out) :
    out.length = entries.length ∧
    ∀ (i : Nat) (e : Entry), entries[i]? = some e →
      ((e.message_id = mid → statusD e = "active" →
          out[i]? = some (setStatus e "no_response"))
       ∧ (e.message_id ≠ mid → out[i]? = some e)
       ∧ (statusD e ≠ "active" → out[i]? = some e)) := by
  cases hf : entries.find? (fun e => e.message_id == mid) with
  | none =>
      have hnone : _handle_status_change entries mid "no_response" = none := by
        unfold _handle_status_change
        rw [hf]
      rw [hnone] at hout
      exact Option.noConfusion hout
  | some entry =>
      have hact : statusD entry = "active" := by
        by_contra h
        have hnone : _handle_status_change entries mid "no_response" =
            none := by
          unfold _handle_status_change
          rw [hf]
          simp [h]
        rw [hnone] at hout
        exact Option.noConfusion hout
      rw [handle_no_response_eq entries mid entry hf hact] at hout
      injection hout with hout
      subst hout
      refine ⟨by simp, ?_⟩
      intro i e hi
      refine ⟨?_, ?_, ?_⟩
      · intro hm hs
        rw [List.getElem?_map, hi]
        simp [hm, hs]
      · intro hm
        rw [List.getElem?_map, hi]
        simp [hm]
      · intro hs
        rw [List.getElem?_map, hi]
        simp [hs]

/-- C5 witness: marking G1 (message 1) no-response in the two-group ledger
leaves G2's entry C (message 2) completely unchanged. -/
theorem mark_no_response_only_target_group_witness :
    twoGroupNoResp[2]? = some entryG2C :=
  ((mark_no_response_only_target_group twoGroupLedger 1 twoGroupNoResp
      (by decide)).2 2 entryG2C (by decide)).2.1 (by decide)

theorem setStatus_ne_of_active (e : Entry) (s : String) (hs : s ≠ "active")
    (ha : statusD e = "active") : setStatus e s ≠ e := by
  intro h
  have h2 := congrArg Entry.status h
  simp only [setStatus] at h2
  rw [statusD, ← h2] at ha
  simp only [Option.getD_some] at ha
  exact hs ha

theorem changedCount_cons (e f : Entry) (l1 l2 : List Entry) :
    changedCount (e :: l1) (f :: l2) =
      changedCount l1 l2 + (if e = f then 0 else 1) := by
  simp only [changedCount, List.zip_cons_cons, List.countP_cons]
  by_cases h : e = f <;> simp [h]

theorem changedCount_map (l : List Entry) (p : Entry → Bool)
    (g : Entry → Entry) (hg : ∀ e, p e = true → g e ≠ e) :
    changedCount l (l.map (fun e => if p e then g e else e)) =
      l.countP p := by
  induction l with
  | nil => rfl
  | cons e es ih =>
      rw [List.map_cons, changedCount_cons, ih, List.countP_cons]
      by_cases hp : p e = true
      · have hfe : (if p e then g e else e) = g e := by simp [hp]
        have hne : ¬ (e = g e) := fun h => hg e hp h.symm
        simp [hp, hfe, hne]
      · have hpe : p e = false := by simpa using hp
        simp [hpe]

theorem handle_active_of_some (entries : List Entry) (mid : Nat) (k : String)
    (entry : Entry)
    (hf : entries.find? (fun e => e.message_id == mid) = some entry)
    (out : List Entry)
    (hout : _handle_status_change entries mid k = some out) :
    statusD entry = "active" := by
  by_contra h
  have hnone : _handle_status_change entries mid k = none := by
    unfold _handle_status_change
    rw [hf]
    simp [h]
  rw [hnone] at hout
  exact Option.noConfusion hout

/-- C6 (amended): a status-change press fails with "target not found",
leaving the ledger untouched, exactly when the first ledger record matching
the pressed panel's message id is absent or not `active` (so it can fail
even though a later `active` record matches); on success the number of
records changed equals the number of matching `active` records — all
message-id matches for `no_response`, all same-owner actives for
`interviewed`. -/
theorem status_change_notfound_count (entries : List Entry) (mid : Nat) :
    (_handle_status_change entries mid "interviewed" = none ↔
      first_match_not_active entries mid = true)
    ∧ (_handle_status_change entries mid "no_response" = none ↔
      first_match_not_active entries mid = true)
    ∧ (∀ out, _handle_status_change entries mid "no_response" = some out →
        changedCount entries out =
          entries.countP (fun e =>
            e.message_id == mid && statusD e == "active"))
    ∧ (∀ entry out,
        entries.find? (fun e => e.message_id == mid) = some entry →
        _handle_status_change entries mid "interviewed" = some out →
        changedCount entries out =
          entries.countP (fun e =>
            e.user_id == entry.user_id && statusD e == "active")) := by
  refine ⟨handle_status_none_iff entries mid "interviewed",
          handle_status_none_iff entries mid "no_response", ?_, ?_⟩
  · intro out hout
    cases hf : entries.find? (fun e => e.message_id == mid) with
    | none =>
        exfalso
        have hnone : _handle_status_change entries mid "no_response" =
            none := by
          unfold _handle_status_change
          rw [hf]
        rw [hnone] at hout
        exact Option.noConfusion hout
    | some entry =>
        have hact := handle_active_of_some entries mid "no_response" entry
          hf out hout
        rw [handle_no_response_eq entries mid entry hf hact] at hout
        injection hout with hout
        subst hout
        refine changedCount_map entries _ _ ?_
        intro e he
        have h2 : statusD e = "active" := by
          simp only [Bool.and_eq_true, beq_iff_eq] at he
          exact he.2
        exact setStatus_ne_of_active e "no_response" (by decide) h2
  · intro entry out hf hout
    have hact := handle_active_of_some entries mid "interviewed" entry
      hf out hout
    rw [handle_interviewed_eq entries mid entry hf hact] at hout
    injection hout with hout
    subst hout
    refine changedCount_map entries _ _ ?_
    intro e he
    have h2 : statusD e = "active" := by
      simp only [Bool.and_eq_true, beq_iff_eq] at he
      exact he.2
    exact setStatus_ne_of_active e "interviewed" (by decide) h2

/-- C6 witness: marking G1 (message 1) of the two-group ledger no-response
changes exactly the 2 matching active records. -/
theorem status_change_notfound_count_witness :
    changedCount twoGroupLedger twoGroupNoResp = 2 :=
  (((status_change_notfound_count twoGroupLedger 1).2.2.1 twoGroupNoResp
      (by decide))).trans (by decide)

/-- C6 counterexample: in `mixedGroupLedger` an `active` record (the second)
matches group id 5, yet the handler reports "target not found" because the
first matching record is `deleted` — so the failure condition is not
"no active entry matches the group id". -/
theorem status_change_notfound_counterexample :
    _handle_status_change mixedGroupLedger 5 "no_response" = none
    ∧ mixedGroupLedger.countP
        (fun e => e.message_id == 5 && statusD e == "active") = 1 := by
  exact ⟨by decide, by decide⟩

theorem foldl_buckets (l : List Entry) (b : String → List Entry)
    (k : String) :
    (l.foldl _group_step b) k =
      b k ++ l.filter (fun e => statusD e == "active" && slotKeyD e == k) := by
  induction l generalizing b with
  | nil => simp
  | cons e es ih =>
      rw [List.foldl_cons, ih, List.filter_cons]
      by_cases hs : statusD e = "active"
      · by_cases hk : slotKeyD e = k
        · simp [_group_step, hs, hk]
        · have hk2 : ¬ (k = slotKeyD e) := fun h => hk h.symm
          simp [_group_step, hs, hk, hk2]
      · simp [_group_step, hs]

theorem mem_group_iff (entries : List Entry) (k : String) (e : Entry) :
    e ∈ _group_entries_by_slot entries k ↔
      e ∈ entries ∧ statusD e = "active" ∧ slotKeyD e = k := by
  unfold _group_entries_by_slot
  rw [(List.perm_insertionSort _ _).mem_iff, foldl_buckets]
  simp [List.mem_filter]

theorem group_sorted (entries : List Entry) (k : String) :
    List.Sorted (fun a b : Entry => a.ts ≤ b.ts)
      (_group_entries_by_slot entries k) :=
  List.sorted_insertionSort _ _

theorem schedule_field_labels (entries : List Entry) :
    (_build_schedule_fields entries).map Prod.fst =
      SLOT_ORDER.map Prod.fst := by
  unfold _build_schedule_fields
  rw [List.map_map]
  rfl

/-- C8: a bucket of the rendered roster holds exactly the `active` entries
of its slot key, each bucket is sorted by `ts` ascending, the embed fields
follow the fixed `SLOT_ORDER` enumeration regardless of ledger order, an
empty bucket renders the placeholder, and in particular the `"0-3"` field
(index 0) precedes `"20-0"` (index 6), which precedes `"other"` (index 8). -/
theorem roster_grouping_order (entries : List Entry) :
    (∀ (k : String) (e : Entry), e ∈ _group_entries_by_slot entries k →
        statusD e = "active" ∧ slotKeyD e = k)
    ∧ (∀ e ∈ entries, statusD e = "active" →
        e ∈ _group_entries_by_slot entries (slotKeyD e))
    ∧ (∀ k : String, List.Sorted (fun a b : Entry => a.ts ≤ b.ts)
        (_group_entries_by_slot entries k))
    ∧ (_build_schedule_fields entries).map Prod.fst =
        SLOT_ORDER.map Prod.fst
    ∧ (∀ k : String, _group_entries_by_slot entries k = [] →
        _bucket_value k (_group_entries_by_slot entries k) = "— なし —")
    ∧ ((_build_schedule_fields entries).map Prod.fst)[0]? = some "0-3時"
    ∧ ((_build_schedule_fields entries).map Prod.fst)[6]? = some "20-0時"
    ∧ ((_build_schedule_fields entries).map Prod.fst)[8]? = some "その他" := by
  refine ⟨?_, ?_, group_sorted entries, schedule_field_labels entries, ?_,
      ?_, ?_, ?_⟩
  · intro k e he
    exact ((mem_group_iff entries k e).1 he).2
  · intro e he hs
    exact (mem_group_iff entries (slotKeyD e) e).2 ⟨he, hs, rfl⟩
  · intro k hk
    rw [hk]
    rfl
  · rw [schedule_field_labels entries]
    rfl
  · rw [schedule_field_labels entries]
    rfl
  · rw [schedule_field_labels entries]
    rfl

/-- C8 witness: in a ledger inserted in the order "20-0", "other", "0-3",
the "0-3" entry is grouped under its own slot key, and the rendered field
labels put "0-3" (index 0) before "20-0" (index 6) before "other"
(index 8). -/
theorem roster_grouping_order_witness :
    ({ sampleActive with slot_key := some "0-3", message_id := 30 } : Entry)
      ∈ _group_entries_by_slot
        [{ sampleActive with slot_key := some "20-0", message_id := 10 },
         { sampleActive with slot_key := some "other", message_id := 20 },
         { sampleActive with slot_key := some "0-3", message_id := 30 }]
        "0-3"
    ∧ ((_build_schedule_fields
        [{ sampleActive with slot_key := some "20-0", message_id := 10 },
         { sampleActive with slot_key := some "other", message_id := 20 },
         { sampleActive with slot_key := some "0-3", message_id := 30 }]).map
          Prod.fst)[0]? = some "0-3時" :=
  ⟨(roster_grouping_order _).2.1
      { sampleActive with slot_key := some "0-3", message_id := 30 }
      (by simp) (by decide),
   (roster_grouping_order
      [{ sampleActive with slot_key := some "20-0", message_id := 10 },
       { sampleActive with slot_key := some "other", message_id := 20 },
       { sampleActive with slot_key := some "0-3", message_id := 30 }]).2.2.2.2.2.1⟩

/-- C10: a ledger record whose `status` field is absent is treated as
`active` by every operation: it blocks re-registration by its owner, it is
counted and listed on the rendered roster, and it is transitioned by the
interviewed cascade, by no-response on its group, and by the admin
delete. -/
theorem missing_status_defaults_active (entries : List Entry) (e : Entry)
    (hst : e.status = none) :
    statusD e = "active"
    ∧ (e ∈ entries → user_has_blocking_entries entries e.user_id = true)
    ∧ (∀ (values : List String) (gid cid mid : Nat) (nm rf : String)
        (ct : Option String) (ts : ℚ), e ∈ entries →
        registerFlow entries e.user_id values gid cid mid nm rf ct ts =
          (entries, some RegError.duplicateRegistration))
    ∧ (e ∈ entries → e ∈ _group_entries_by_slot entries (slotKeyD e))
    ∧ (e ∈ entries → 0 < total_active entries)
    ∧ (∀ (i : Nat), entries[i]? = some e →
        ∀ entry out,
          entries.find? (fun x => x.message_id == e.message_id) =
            some entry →
          e.user_id = entry.user_id →
          _handle_status_change entries e.message_id "interviewed" =
            some out →
          out[i]? = some (setStatus e "interviewed"))
    ∧ (∀ (i : Nat), entries[i]? = some e →
        ∀ out,
          _handle_status_change entries e.message_id "no_response" =
            some out →
          out[i]? = some (setStatus e "no_response"))
    ∧ (∀ (i : Nat), entries[i]? = some e →
        (entry_delete entries e.message_id none).1[i]? =
          some (setStatus e "deleted")) := by
  have hact : statusD e = "active" := by
    rw [statusD, hst]
    rfl
  have hblock : e ∈ entries →
      user_has_blocking_entries entries e.user_id = true := by
    intro he
    simp only [user_has_blocking_entries, List.any_eq_true]
    exact ⟨e, he, by simp [hact, BLOCK_STATUSES]⟩
  refine ⟨hact, hblock, ?_, ?_, ?_, ?_, ?_, ?_⟩
  · intro values gid cid mid nm rf ct ts he
    simp [registerFlow, hblock he]
  · intro he
    exact (mem_group_iff entries (slotKeyD e) e).2 ⟨he, hact, rfl⟩
  · intro he
    rw [total_active, List.countP_pos_iff]
    exact ⟨e, he, by simp [hact]⟩
  · intro i hi entry out hf hu hout
    have ha := handle_active_of_some entries e.message_id "interviewed"
      entry hf out hout
    rw [handle_interviewed_eq entries e.message_id entry hf ha] at hout
    injection hout with hout
    subst hout
    rw [List.getElem?_map, hi]
    simp [hu, hact]
  · intro i hi out hout
    cases hf : entries.find? (fun x => x.message_id == e.message_id) with
    | none =>
        exfalso
        have hnone : _handle_status_change entries e.message_id
            "no_response" = none := by
          unfold _handle_status_change
          rw [hf]
        rw [hnone] at hout
        exact Option.noConfusion hout
    | some entry =>
        have ha := handle_active_of_some entries e.message_id "no_response"
          entry hf out hout
        rw [handle_no_response_eq entries e.message_id entry hf ha] at hout
        injection hout with hout
        subst hout
        rw [List.getElem?_map, hi]
        simp [hact]
  · intro i hi
    unfold entry_delete
    rw [List.getElem?_map, hi]
    simp [entry_delete_pred, hact]

/-- C10 witness: the status-less record `sampleNoStatus` blocks its owner's
re-registration and is soft-deleted by the admin delete on its panel
message. -/
theorem missing_status_defaults_active_witness :
    user_has_blocking_entries [sampleNoStatus] sampleNoStatus.user_id = true
    ∧ (entry_delete [sampleNoStatus] sampleNoStatus.message_id
        none).1[0]? = some (setStatus sampleNoStatus "deleted") :=
  ⟨(missing_status_defaults_active [sampleNoStatus] sampleNoStatus
      (by decide)).2.1 (by simp),
   (missing_status_defaults_active [sampleNoStatus] sampleNoStatus
      (by decide)).2.2.2.2.2.2.2 0 (by decide)⟩

theorem edit_embed_fst (n : Nat) (emb : Embed) (m : Nat × Embed) :
    (edit_embed n emb m).1 = m.1 := by
  unfold edit_embed
  split <;> rfl

theorem edit_embed_idem (n : Nat) (emb : Embed) (m : Nat × Embed) :
    edit_embed n emb (edit_embed n emb m) = edit_embed n emb m := by
  unfold edit_embed
  by_cases h : (m.1 == n) = true
  · simp [h]
  · simp [h]

theorem map_edit_twice (msgs : List (Nat × Embed)) (n : Nat) (emb : Embed) :
    (msgs.map (edit_embed n emb)).map (edit_embed n emb) =
      msgs.map (edit_embed n emb) := by
  rw [List.map_map]
  apply List.map_congr_left
  intro m _
  exact edit_embed_idem n emb m

theorem any_fst_map_edit (msgs : List (Nat × Embed)) (n k : Nat)
    (emb : Embed) :
    (msgs.map (edit_embed n emb)).any (fun m => m.1 == k) =
      msgs.any (fun m => m.1 == k) := by
  induction msgs with
  | nil => rfl
  | cons m ms ih =>
      simp only [List.map_cons, List.any_cons, ih, edit_embed_fst]

theorem map_fst_edit (msgs : List (Nat × Embed)) (n : Nat) (emb : Embed) :
    (msgs.map (edit_embed n emb)).map Prod.fst = msgs.map Prod.fst := by
  rw [List.map_map]
  apply List.map_congr_left
  intro m _
  exact edit_embed_fst n emb m

theorem update_no_channel (entries : List Entry) (w : RosterWorld)
    (hch : w.channel_ok = false) :
    update_schedule_panel entries w = w := by
  unfold update_schedule_panel ensure_schedule_message
  simp [hch]

theorem update_resolvable (entries : List Entry) (w : RosterWorld)
    (mid : Nat) (hch : w.channel_ok = true)
    (hb : truthyId w.schedule_state = some mid)
    (hr : w.messages.any (fun m => m.1 == mid) = true) :
    update_schedule_panel entries w =
      { w with
        messages :=
          w.messages.map (edit_embed mid (_build_schedule_embed entries)) } := by
  unfold update_schedule_panel ensure_schedule_message
  rw [hb]
  simp [hch, hr]

theorem update_unresolvable (entries : List Entry) (w : RosterWorld)
    (hch : w.channel_ok = true)
    (hr : roster_binding_resolvable w = false) :
    update_schedule_panel entries w =
      { w with
        messages :=
          (w.messages ++
            [(w.next_id, _build_schedule_embed entries)]).map
            (edit_embed w.next_id (_build_schedule_embed entries)),
        next_id := w.next_id + 1,
        schedule_state := some w.next_id,
        schedule_store := some w.next_id } := by
  have hr2 : ∀ m, truthyId w.schedule_state = some m →
      w.messages.any (fun x => x.1 == m) = false := by
    intro m hb
    unfold roster_binding_resolvable at hr
    rw [hb] at hr
    exact hr
  unfold update_schedule_panel ensure_schedule_message
  cases hb : truthyId w.schedule_state with
  | none => simp [hch]
  | some mid => simp [hch, hr2 mid hb]

theorem truthyId_some_pos (n : Nat) (hn : 0 < n) :
    truthyId (some n) = some n := by
  cases n with
  | zero => omega
  | succ k => rfl

theorem update_of_resolved (entries : List Entry) (w : RosterWorld)
    (mid : Nat) (hch : w.channel_ok = true)
    (hb : truthyId w.schedule_state = some mid)
    (hr : w.messages.any (fun m => m.1 == mid) = true)
    (hdone : w.messages.map (edit_embed mid (_build_schedule_embed entries))
      = w.messages) :
    update_schedule_panel entries w = w := by
  rw [update_resolvable entries w mid hch hb hr, hdone]

theorem resolvable_elim (w : RosterWorld)
    (hr : roster_binding_resolvable w = true) :
    ∃ mid, truthyId w.schedule_state = some mid ∧
      w.messages.any (fun m => m.1 == mid) = true := by
  unfold roster_binding_resolvable at hr
  cases hb : truthyId w.schedule_state with
  | none =>
      rw [hb] at hr
      exact absurd hr (by simp)
  | some mid =>
      rw [hb] at hr
      exact ⟨mid, rfl, hr⟩

/-- C3: roster sync is idempotent (a second `sync()` with no ledger change
leaves the world — messages and rendered content — exactly as the first
left it, provided the platform's next message id is a real, nonzero id);
while the bound roster message is fetchable, `sync()` edits in place —
message count, next id, binding, and message ids all unchanged; and only
when the binding is absent or unresolvable does it append one new message
and re-bind (persisting the new binding). -/
theorem roster_sync_idempotent (entries : List Entry) (w : RosterWorld) :
    (0 < w.next_id →
      update_schedule_panel entries (update_schedule_panel entries w) =
        update_schedule_panel entries w)
    ∧ (w.channel_ok = true → roster_binding_resolvable w = true →
        ((update_schedule_panel entries w).messages.length =
            w.messages.length
         ∧ (update_schedule_panel entries w).next_id = w.next_id
         ∧ (update_schedule_panel entries w).schedule_state =
             w.schedule_state
         ∧ (update_schedule_panel entries w).messages.map Prod.fst =
             w.messages.map Prod.fst))
    ∧ (w.channel_ok = true → roster_binding_resolvable w = false →
        ((update_schedule_panel entries w).messages.length =
            w.messages.length + 1
         ∧ (update_schedule_panel entries w).schedule_state =
             some w.next_id
         ∧ (update_schedule_panel entries w).schedule_store =
             some w.next_id)) := by
  refine ⟨?_, ?_, ?_⟩
  · intro hn
    by_cases hch : w.channel_ok = true
    · cases hrb : roster_binding_resolvable w with
      | true =>
          obtain ⟨mid, hb, hr⟩ := resolvable_elim w hrb
          rw [update_resolvable entries w mid hch hb hr]
          refine update_of_resolved entries _ mid ?_ ?_ ?_ ?_
          · exact hch
          · exact hb
          · show ((w.messages.map
                (edit_embed mid (_build_schedule_embed entries))).any
                  (fun m => m.1 == mid)) = true
            rw [any_fst_map_edit]
            exact hr
          · exact map_edit_twice _ _ _
      | false =>
          rw [update_unresolvable entries w hch hrb]
          refine update_of_resolved entries _ w.next_id ?_ ?_ ?_ ?_
          · exact hch
          · exact truthyId_some_pos w.next_id hn
          · show (((w.messages ++
                [(w.next_id, _build_schedule_embed entries)]).map
                (edit_embed w.next_id (_build_schedule_embed entries))).any
                  (fun m => m.1 == w.next_id)) = true
            rw [any_fst_map_edit]
            simp
          · exact map_edit_twice _ _ _
    · have hch2 : w.channel_ok = false := by simpa using hch
      rw [update_no_channel entries w hch2, update_no_channel entries w hch2]
  · intro hch hrb
    obtain ⟨mid, hb, hr⟩ := resolvable_elim w hrb
    rw [update_resolvable entries w mid hch hb hr]
    exact ⟨by simp, rfl, rfl, map_fst_edit _ _ _⟩
  · intro hch hrb
    rw [update_unresolvable entries w hch hrb]
    refine ⟨by simp, rfl, rfl⟩

/-- C3 witness: from a fresh world (channel configured, no binding, next id
1) a first sync creates and binds message 1; a second sync with the same
(empty) ledger changes nothing. -/
theorem roster_sync_idempotent_witness :
    update_schedule_panel [] (update_schedule_panel [] rosterW0) =
      update_schedule_panel [] rosterW0
    ∧ (update_schedule_panel [] rosterW0).schedule_state = some 1 :=
  ⟨(roster_sync_idempotent [] rosterW0).1 (by decide),
   ((roster_sync_idempotent [] rosterW0).2.2 rfl (by decide)).2.1⟩

theorem sticky_reconcile_pinned (w : StickyWorld) (s : Nat)
    (hs : truthyId w.sticky = some s)
    (hl : w.messages.getLast? = some s) :
    sticky_reconcile w = (w, [StickyCall.history]) := by
  unfold sticky_reconcile
  rw [hl, hs]
  simp

theorem sticky_reconcile_not_pinned (w : StickyWorld)
    (hnp : (match w.messages.getLast?, truthyId w.sticky with
        | some l, some s => l == s
        | _, _ => false) = false) :
    sticky_reconcile w =
      ({ w with
         messages := (match truthyId w.sticky with
            | some s => delete_message_if_exists w.messages s
            | none => (w.messages, [])).1 ++ [w.next_id],
         next_id := w.next_id + 1,
         sticky := some w.next_id,
         sticky_store := some w.next_id },
       [StickyCall.history] ++ (match truthyId w.sticky with
          | some s => delete_message_if_exists w.messages s
          | none => (w.messages, [])).2 ++
         [StickyCall.send w.next_id]) := by
  unfold sticky_reconcile
  simp [hnp]

theorem sticky_reconcile_not_pinned_facts (w : StickyWorld)
    (hnp : (match w.messages.getLast?, truthyId w.sticky with
        | some l, some s => l == s
        | _, _ => false) = false) :
    (sticky_reconcile w).1.sticky = some w.next_id
    ∧ (sticky_reconcile w).1.sticky_store = some w.next_id
    ∧ (sticky_reconcile w).1.messages.getLast? = some w.next_id
    ∧ (sticky_reconcile w).2.countP is_send = 1
    ∧ (w.next_id ∉ w.messages →
        (sticky_reconcile w).1.messages.count w.next_id = 1)
    ∧ (∀ s, truthyId w.sticky = some s → s ≠ w.next_id →
        w.messages.Nodup → s ∉ (sticky_reconcile w).1.messages) := by
  rw [sticky_reconcile_not_pinned w hnp]
  refine ⟨rfl, rfl, List.getLast?_concat _, ?_, ?_, ?_⟩
  · cases hc : truthyId w.sticky with
    | none => simp [is_send]
    | some s =>
        unfold delete_message_if_exists
        by_cases hm : s ∈ w.messages
        · simp [hm, is_send]
        · simp [hm, is_send]
  · intro hfresh
    cases hc : truthyId w.sticky with
    | none =>
        simp [List.count_append, List.count_eq_zero.mpr hfresh,
          List.count_singleton_self]
    | some s =>
        unfold delete_message_if_exists
        by_cases hm : s ∈ w.messages
        · have h2 : w.next_id ∉ w.messages.erase s :=
            fun h => hfresh (List.mem_of_mem_erase h)
          simp [hm, List.count_append, List.count_eq_zero.mpr h2,
            List.count_singleton_self]
        · simp [hm, List.count_append, List.count_eq_zero.mpr hfresh,
            List.count_singleton_self]
  · intro s hs hne hnodup
    rw [hs]
    unfold delete_message_if_exists
    by_cases hm : w.messages.contains s = true
    · simp only [hm, if_true, List.mem_append]
      rintro (h | h)
      · exact hnodup.not_mem_erase h
      · simp at h
        exact hne h
    · have hm2 : s ∉ w.messages := by simpa using hm
      simp only [hm, Bool.false_eq_true, if_false, List.mem_append]
      rintro (h | h)
      · exact hm2 h
      · simp at h
        exact hne h

/-- C7: a reconciliation trigger arriving within the cooldown window
(strictly less than `STICKY_COOLDOWN_SEC` after the channel's previous
stamp) is dropped, not queued: the pass performs no platform call (empty
trace) and returns the state — messages, binding, durable copy, cooldown
stamp — completely unchanged. -/
theorem sticky_cooldown_drops (w : StickyWorld) (now : ℚ)
    (h : now - w.cooldown_last < STICKY_COOLDOWN_SEC) :
    ensure_sticky_bottom w now = (w, []) := by
  unfold ensure_sticky_bottom
  rw [if_pos h]

/-- C7 witness: a second trigger one second after the stamp is dropped with
no platform call and no state change. -/
theorem sticky_cooldown_drops_witness :
    ensure_sticky_bottom
      { messages := [5, 6], next_id := 7, sticky := some 5,
        sticky_store := some 5, cooldown_last := 9 } 10 =
      ({ messages := [5, 6], next_id := 7, sticky := some 5,
         sticky_store := some 5, cooldown_last := 9 }, []) :=
  sticky_cooldown_drops
    { messages := [5, 6], next_id := 7, sticky := some 5,
      sticky_store := some 5, cooldown_last := 9 } 10
    (by norm_num [STICKY_COOLDOWN_SEC])

/-- C4: a reconciliation pass outside the cooldown window follows the
transition rule: when the channel's most recent message is the bound
control message it does nothing beyond the history fetch; otherwise it
best-effort deletes the previously bound message, performs exactly one
send, records the fresh message's id as the binding and persists it, and
leaves that message as the channel's last, occurring exactly once (given a
fresh platform id), with the old bound message gone. -/
theorem sticky_pass_transition (w : StickyWorld) (now : ℚ)
    (hcd : ¬ (now - w.cooldown_last < STICKY_COOLDOWN_SEC)) :
    (∀ s, truthyId w.sticky = some s → w.messages.getLast? = some s →
        ensure_sticky_bottom w now =
          ({ w with cooldown_last := now }, [StickyCall.history]))
    ∧ ((match w.messages.getLast?, truthyId w.sticky with
          | some l, some s => l == s
          | _, _ => false) = false →
        ((ensure_sticky_bottom w now).1.sticky = some w.next_id
         ∧ (ensure_sticky_bottom w now).1.sticky_store = some w.next_id
         ∧ (ensure_sticky_bottom w now).1.messages.getLast? =
             some w.next_id
         ∧ (ensure_sticky_bottom w now).2.countP is_send = 1
         ∧ (w.next_id ∉ w.messages →
             (ensure_sticky_bottom w now).1.messages.count w.next_id = 1)
         ∧ (∀ s, truthyId w.sticky = some s → s ≠ w.next_id →
             w.messages.Nodup →
             s ∉ (ensure_sticky_bottom w now).1.messages))) := by
  have hee : ensure_sticky_bottom w now =
      sticky_reconcile { w with cooldown_last := now } := by
    unfold ensure_sticky_bottom
    rw [if_neg hcd]
  constructor
  · intro s hs hl
    rw [hee]
    exact sticky_reconcile_pinned { w with cooldown_last := now } s hs hl
  · intro hnp
    have h := sticky_reconcile_not_pinned_facts
      { w with cooldown_last := now } hnp
    rw [hee]
    exact ⟨h.1, h.2.1, h.2.2.1, h.2.2.2.1, h.2.2.2.2.1, h.2.2.2.2.2⟩

/-- C4 witness: in a channel where the bound message 5 is no longer last
(message 6 follows it), one pass re-binds to the fresh message 7, which is
then the last message. -/
theorem sticky_pass_transition_witness :
    (ensure_sticky_bottom stickyW0 10).1.sticky = some 7
    ∧ (ensure_sticky_bottom stickyW0 10).1.messages.getLast? = some 7 :=
  ⟨((sticky_pass_transition stickyW0 10
      (by norm_num [stickyW0, STICKY_COOLDOWN_SEC])).2 (by decide)).1,
   ((sticky_pass_transition stickyW0 10
      (by norm_num [stickyW0, STICKY_COOLDOWN_SEC])).2 (by decide)).2.2.1⟩
